import Mathlib

/-!
Verification of the ai-debt-guardian heuristic debt engine.

The embedding follows the canonical implementations in the repository:
the snapshot analyzer (detectAIPatterns / detectTechnicalDebt /
detectCognitiveDebt / buildPropagationGraph, the variant that also emits
the SUS, TDD, PRI, CRS and SCS sub-metrics) and the history analyzer
(scorePatch and the commit accumulation loop).

Numbers are modelled as rationals; JavaScript `Math.round(x)` is
`⌊x + 1/2⌋`, `Math.round(x * 100) / 100` is `round2`, and
`Math.min(Math.max(x, 0), 1)` is `clamp01`.  Regex match results and
`Math.sqrt` outputs are primitive measurements of the input text,
recorded as fields of the `Measures` structure (each documented with
the exact source expression it stands for); every computation
downstream of those measurements is translated literally.
-/

namespace AIDebt

/-- JavaScript `Math.round` (halves round toward positive infinity). -/
def jsRound (x : ℚ) : ℤ := ⌊x + 1/2⌋

/-- JavaScript `Math.round(x * 100) / 100` — rounding to two decimals. -/
def round2 (x : ℚ) : ℚ := (jsRound (x * 100) : ℚ) / 100

/-- JavaScript `Math.min(Math.max(x, 0), 1)`. -/
def clamp01 (x : ℚ) : ℚ := min (max x 0) 1

/-- JavaScript `s.includes(pat)` for a non-empty pattern: `String.splitOn`
returns more than one piece exactly when the pattern occurs. -/
def jsIncludes (s pat : String) : Bool := 2 ≤ (s.splitOn pat).length

/-- JavaScript `s.includes(pat)` for a possibly empty pattern
(`''.includes('')` is `true` in JavaScript). -/
def jsIncludesStr (s pat : String) : Bool :=
  if pat = "" then true else jsIncludes s pat

/-- Number of distinct elements of `l` occurring at least `k` times: the
`[...freq.values()].filter(v => v >= k).length` idiom of the source. -/
def countRepeats (l : List String) (k : ℕ) : ℕ :=
  (l.dedup.filter (fun x => k ≤ l.count x)).length

/-- JavaScript `[...new Set(xs)]`: deduplication keeping first occurrences. -/
def dedupKeepFirst (l : List String) : List String :=
  l.foldl (fun acc a => if a ∈ acc then acc else acc ++ [a]) []

/-- Word-constituent character (regex `\w`). -/
def isWordChar (c : Char) : Bool := c.isAlphanum || c = '_'

/-- Test for regex `pat` followed by a word boundary `\b` somewhere in `s`
(`pat` itself ends in a word character): some occurrence of `pat` is
followed by a non-word character or the end of the string. -/
def hasWordBoundedOcc (s pat : String) : Bool :=
  match s.splitOn pat with
  | [] => false
  | _ :: rest => rest.any (fun r => r.isEmpty || !(isWordChar r.front))

/-- One character of the source brace scan: `if ch=='{' then depth++,
maxDepth = max maxDepth depth; if ch=='}' then depth--` on the pair
`(depth, maxDepth)`. -/
def braceStep (p : ℤ × ℤ) (c : Char) : ℤ × ℤ :=
  if c = '{' then (p.1 + 1, max p.2 (p.1 + 1))
  else if c = '}' then (p.1 - 1, p.2) else p

/-- Maximum brace depth reached scanning the text left to right. -/
def maxBraceDepth (s : String) : ℤ :=
  (s.data.foldl braceStep (0, 0)).2

/-- Whether a list of strings is non-decreasing: equivalent to JavaScript
`JSON.stringify(xs) === JSON.stringify([...xs].sort())`. -/
def isSortedAsc : List String → Bool
  | [] => true
  | [_] => true
  | a :: b :: t => (decide (a ≤ b)) && isSortedAsc (b :: t)

/--
Primitive measurements of one file's text.  `content` is the raw text;
every other field records the result of a regex match or `Math.sqrt`
call performed by the source on that text:
* `strippedFuncBodies` — the matches of
  `/(?:function\s+\w+|const\s+\w+\s*=\s*(?:async\s*)?\()[\s\S]{0,300}?}/g`
  after `.replace(/\s+/g,' ').replace(/\w+/g,'X')` (AI detector, SUS);
* `tokens` — matches of `/\b\w+\b/g` (TDD);
* `genericNames` — count of the generic-identifier alternation match (AI
  detector heuristic 6 and `iasProxy`);
* `camel`, `snake` — counts of `/[a-z][A-Z]/g` and `/[a-z]_[a-z]/g`;
* `longParams` — count of `/\([^)]{90,}\)/g`;
* `magicNums` — count of `/(?<![.\w])\d{2,}(?![.\w])/g`;
* `typeAnnots` — count of `/:\s*(string|number|boolean|any|...)\b/g`;
* `hasCorpus` — `allContents && allContents.length > 1`;
* `crossFileMatches` — the cross-file chunk match count;
* `branches` — count of `/\b(if|else|for|while|switch|case|catch|&&|\|\||\?)\b/g`;
* `controlFlow` — count of `/\b(if|else|for|while|do|switch|try|catch)\b/g`;
* `allIds` — matches of `/\b[a-zA-Z_]\w*\b/g`;
* `funcMatchesLong` — count of the long-function match (body over 2000 chars);
* `funcDeclTech` — count of `/function\s+\w+|const\s+\w+\s*=\s*(?:async\s*)?\(/g`
  (`0` stands for a `null` match result);
* `blockKeys` — matches of `/\{[^{}]{30,100}\}/g` after whitespace
  normalisation;
* `importCount`, `exportCount` — counts of `/import\s/g` and `/export\s/g`;
* `cogFuncDecls` — count of `/function\s+\w+|=>\s*\{/g` (`0` for `null`);
* `funcNames` — captures of `/function\s+([a-zA-Z]\w+)/g` (names only);
* `funcCalls` — count of `/\w+\s*\(/g`;
* `hasHighLevel`, `hasLowLevel` — the two abstraction-level regex tests;
* `sdNonEmpty` — `Math.sqrt` of the variance of non-empty line lengths
  (AI detector); `sdAll` — `Math.sqrt` of the variance of all line
  lengths (cognitive detector).  Being square roots, both are
  non-negative; theorems take that as a hypothesis.
-/
structure Measures where
  content : String
  strippedFuncBodies : List String
  tokens : List String
  genericNames : ℕ
  camel : ℕ
  snake : ℕ
  longParams : ℕ
  magicNums : ℕ
  typeAnnots : ℕ
  hasCorpus : Bool
  crossFileMatches : ℕ
  branches : ℕ
  controlFlow : ℕ
  allIds : List String
  funcMatchesLong : ℕ
  funcDeclTech : ℕ
  blockKeys : List String
  importCount : ℕ
  exportCount : ℕ
  cogFuncDecls : ℕ
  funcNames : List String
  funcCalls : ℕ
  hasHighLevel : Bool
  hasLowLevel : Bool
  sdNonEmpty : ℚ
  sdAll : ℚ
  deriving DecidableEq

/-- Source `const lines = content.split('\n')`. -/
def jsLines (m : Measures) : List String := m.content.splitOn "\n"

/-- Source `const totalLines = lines.length`. -/
def totalLines (m : Measures) : ℕ := (jsLines m).length

/-- Source `lines.filter(l => l.trim().length > 0)`. -/
def nonEmptyLines (m : Measures) : List String :=
  (jsLines m).filter (fun l => 0 < l.trim.length)

/-- Source `content.includes('try') && content.includes('catch')`. -/
def hasTryCatch (m : Measures) : Bool :=
  jsIncludes m.content "try" && jsIncludes m.content "catch"

/-- Source `content.includes('async') || content.includes('await') ||
content.includes('.then')`. -/
def hasAsync (m : Measures) : Bool :=
  jsIncludes m.content "async" || jsIncludes m.content "await" ||
    jsIncludes m.content ".then"

/-! ## Technical Debt Estimator (source `detectTechnicalDebt`) -/

/-- Output bundle of `detectTechnicalDebt`. -/
structure TechResult where
  technicalDebt : ℚ
  cyclomaticComplexity : ℕ
  nestingDepth : ℤ
  linesOfCode : ℕ
  functions : ℕ
  techIssues : List String
  ddp : ℚ
  mds : ℚ
  deriving DecidableEq

/-- Source `const linesOfCode = lines.filter(l => l.trim().length > 0).length`. -/
def linesOfCode (m : Measures) : ℕ := (nonEmptyLines m).length

/-- Source `const cyclomaticComplexity = 1 + branches`. -/
def cyclomatic (m : Measures) : ℕ := 1 + m.branches

/-- Source `const functions = funcDecl` where
`funcDecl = content.match(...)?.length || 1`. -/
def techFunctions (m : Measures) : ℕ := max m.funcDeclTech 1

/-- Source `const dupeBlocks = [...blockFreq.values()].filter(v => v > 2).length`. -/
def dupeBlocks (m : Measures) : ℕ := countRepeats m.blockKeys 3

/-- Source `const mds = Math.round(Math.min(coupling / (cohesion * 3), 1) * 100) / 100`
with `coupling = imports`, `cohesion = Math.max(exports, 1)`. -/
def mdsVal (m : Measures) : ℚ :=
  round2 (min ((m.importCount : ℚ) / ((max m.exportCount 1 : ℕ) * 3 : ℕ)) 1)

/-- Technical-debt issue tags pushed before the MDS check, in source order
(the third tier of each threshold adds weight but no tag). -/
def techIssuesPre (m : Measures) : List String :=
  (if 15 < cyclomatic m then ["high cyclomatic complexity"]
   else if 8 < cyclomatic m then ["moderate cyclomatic complexity"] else []) ++
  (if 4 < maxBraceDepth m.content then ["deep nesting (>4 levels)"]
   else if 3 < maxBraceDepth m.content then ["nesting at 4 levels"] else []) ++
  (if 0 < m.funcMatchesLong then ["long functions (>50 lines)"] else []) ++
  (if 300 < linesOfCode m then ["large file (>300 LOC)"]
   else if 200 < linesOfCode m then ["growing file (>200 LOC)"] else []) ++
  (if 20 < techFunctions m then ["poor modularization"] else []) ++
  (if 1 < dupeBlocks m then ["duplicate code blocks"] else [])

/-- Source `const issueCount = techIssues.length + (cc > 10 ? 2 : 0) + (maxDepth > 3 ? 1 : 0)`:
evaluated before the MDS tag is pushed. -/
def ddpIssueCount (m : Measures) : ℕ :=
  (techIssuesPre m).length + (if 10 < cyclomatic m then 2 else 0) +
    (if 3 < maxBraceDepth m.content then 1 else 0)

/-- Source `const ddp = Math.round(Math.min(issueCount / Math.max(linesOfCode / 100, 1), 1) * 100) / 100`. -/
def ddpVal (m : Measures) : ℚ :=
  round2 (min ((ddpIssueCount m : ℚ) / max ((linesOfCode m : ℚ) / 100) 1) 1)

/-- Accumulated technical-debt weight, one summand per source `debt +=` site. -/
def techDebtSum (m : Measures) : ℚ :=
  (if 15 < cyclomatic m then 0.30
   else if 8 < cyclomatic m then 0.18
   else if 5 < cyclomatic m then 0.06 else 0) +
  (if 4 < maxBraceDepth m.content then 0.30
   else if 3 < maxBraceDepth m.content then 0.18
   else if 2 < maxBraceDepth m.content then 0.06 else 0) +
  (if 0 < m.funcMatchesLong then 0.2 * ((min m.funcMatchesLong 3 : ℕ) : ℚ) else 0) +
  (if 300 < linesOfCode m then 0.25
   else if 200 < linesOfCode m then 0.15
   else if 150 < linesOfCode m then 0.05 else 0) +
  (if 20 < techFunctions m then 0.1 else 0) +
  (if 1 < dupeBlocks m then 0.15 else 0) +
  (if 0.6 < mdsVal m then 0.1 else 0)

/-- Source `detectTechnicalDebt` (the variant returning DDP and MDS). -/
def detectTechnicalDebt (m : Measures) : TechResult where
  technicalDebt := round2 (min (techDebtSum m) 1)
  cyclomaticComplexity := cyclomatic m
  nestingDepth := maxBraceDepth m.content
  linesOfCode := linesOfCode m
  functions := techFunctions m
  techIssues :=
    techIssuesPre m ++ (if 0.6 < mdsVal m then ["high coupling / low cohesion"] else [])
  ddp := ddpVal m
  mds := mdsVal m

/-! ## Pattern Detector (source `detectAIPatterns` with SUS/TDD/PRI/CRS/SCS) -/

/-- Verb alternation of the comment-redundancy regex
`/\/\/ (get|set|create|...)\b/` of the Pattern Detector. -/
def aiVerbList : List String :=
  ["get", "set", "create", "initialize", "check", "return", "call", "loop",
   "iterate", "define", "declare", "update", "delete", "remove", "add",
   "increment", "decrement", "calculate", "compute", "import", "export",
   "render", "handle", "process", "validate", "parse", "format", "convert",
   "transform", "build", "make", "run", "execute", "start", "stop", "close",
   "open", "read", "write", "send", "receive", "fetch", "load", "save"]

/-- Source comment-line filter of the Pattern Detector:
`t.startsWith('//') || t.startsWith('#') || t.startsWith('*')` on `t = l.trim()`. -/
def commentLinesAI (m : Measures) : List String :=
  (jsLines m).filter (fun l =>
    l.trim.startsWith "//" || l.trim.startsWith "#" || l.trim.startsWith "*")

/-- Source `obviousComments` filter: the redundancy regex tested against
`l.trim().toLowerCase()`. -/
def isObviousComment (l : String) : Bool :=
  aiVerbList.any (fun v => hasWordBoundedOcc (l.trim.toLower) ("// " ++ v))

/-- Source `obviousComments.length`. -/
def obviousCount (m : Measures) : ℕ :=
  ((commentLinesAI m).filter isObviousComment).length

/-- Source SUS: `0` with fewer than three function bodies, else
`round2(1 - uniq / funcBodies.length)` where `uniq` is the number of
distinct identifier-erased bodies. -/
def susRounded (m : Measures) : ℚ :=
  if 3 ≤ m.strippedFuncBodies.length then
    round2 (1 - (m.strippedFuncBodies.dedup.length : ℚ) / m.strippedFuncBodies.length)
  else 0

/-- Source `topFreqSum`: the ten largest token multiplicities summed. -/
def topFreqSum (m : Measures) : ℕ :=
  ((((m.tokens.dedup.map (fun t => m.tokens.count t)).mergeSort
      (fun a b => decide (b ≤ a))).take 10).sum)

/-- Source TDD: `round2(min(topFreqSum / (tokens.length || 1), 1))`. -/
def tddVal (m : Measures) : ℚ :=
  round2 (min ((topFreqSum m : ℚ) / (max m.tokens.length 1 : ℕ)) 1)

/-- Source PRI line-frequency keys: trimmed lines longer than 12 characters. -/
def priCandidates (m : Measures) : List String :=
  ((jsLines m).map String.trim).filter (fun t => 12 < t.length)

/-- Source `duplicated`: distinct keys occurring at least twice. -/
def duplicatedLines (m : Measures) : ℕ := countRepeats (priCandidates m) 2

/-- Source PRI: `round2(min(duplicated / max(nonEmpty * 0.1, 1), 1))`. -/
def priVal (m : Measures) : ℚ :=
  round2 (min ((duplicatedLines m : ℚ) /
    max (((nonEmptyLines m).length : ℚ) * 0.1) 1) 1)

/-- Source CRS: `round2(min(obvious / max(commentLines.length, 1), 1))`. -/
def crsVal (m : Measures) : ℚ :=
  round2 (min ((obviousCount m : ℚ) / (max (commentLinesAI m).length 1 : ℕ)) 1)

/-- Source `commentRatio = commentLines.length / totalLines` (Pattern Detector). -/
def commentShareAI (m : Measures) : ℚ :=
  ((commentLinesAI m).length : ℚ) / (totalLines m : ℚ)

/-- Source SCS: `round2(max(0, 1 - stdDev / 30))`. -/
def scsVal (m : Measures) : ℚ := round2 (max 0 (1 - m.sdNonEmpty / 30))

/-- Source import-line filter `l.trim().startsWith('import ')`. -/
def importLines (m : Measures) : List String :=
  (jsLines m).filter (fun l => l.trim.startsWith "import ")

/-- Accumulated heuristic score of the Pattern Detector: one summand per
source `score +=` site, in source order. -/
def aiScore (m : Measures) : ℚ :=
  (if 3 ≤ m.strippedFuncBodies.length then
    (if 0.5 < susRounded m then 0.18
     else if 0.3 < susRounded m then 0.08 else 0) else 0) +
  (if 0.3 < tddVal m then 0.1 else 0) +
  (if 0.3 < priVal m then 0.22 else if 0.1 < priVal m then 0.10 else 0) +
  (if 0.5 < crsVal m then 0.15 else if 0.3 < crsVal m then 0.06 else 0) +
  (if 0.20 < commentShareAI m then 0.12
   else if 0.12 < commentShareAI m then 0.05 else 0) +
  (if 0.7 < scsVal m ∧ 20 < (nonEmptyLines m).length then 0.14
   else if 0.5 < scsVal m ∧ 15 < (nonEmptyLines m).length then 0.06 else 0) +
  (if (totalLines m : ℚ) * 0.008 < (m.genericNames : ℚ) then 0.18
   else if (totalLines m : ℚ) * 0.004 < (m.genericNames : ℚ) then 0.08 else 0) +
  (if m.hasCorpus ∧ 3 < m.crossFileMatches then 0.12 else 0) +
  (if 5 < m.camel ∧ 5 < m.snake then 0.08 else 0) +
  (if 2 < m.longParams then 0.06 else 0) +
  (if 6 < m.magicNums then 0.05 else 0) +
  (if hasAsync m ∧ ¬ hasTryCatch m then 0.1 else 0) +
  (if 5 < (importLines m).length ∧ isSortedAsc (importLines m) then 0.06 else 0) +
  (if (totalLines m : ℚ) * 0.05 < (m.typeAnnots : ℚ) then 0.07 else 0)

/-- Source `iasProxy = genericNames ? min(genericNames.length / max(totalLines * 0.01, 1), 1) : 0`. -/
def iasProxy (m : Measures) : ℚ :=
  if m.genericNames = 0 then 0
  else min ((m.genericNames : ℚ) / max ((totalLines m : ℚ) * 0.01) 1) 1

/-- Source `entropyProxy = 1 - stdDev / 30`. -/
def entropyProxy (m : Measures) : ℚ := 1 - m.sdNonEmpty / 30

/-- Source `weightedAI = sus*0.25 + pri*0.2 + crs*0.2 + iasProxy*0.15 + max(0, entropyProxy)*0.2`. -/
def weightedAI (m : Measures) : ℚ :=
  susRounded m * 0.25 + priVal m * 0.2 + crsVal m * 0.2 +
    iasProxy m * 0.15 + max 0 (entropyProxy m) * 0.2

/-- Source `const aiLikelihood = Math.min(Math.max(score + 0.05, weightedAI), 1)`. -/
def aiRaw (m : Measures) : ℚ := min (max (aiScore m + 0.05) (weightedAI m)) 1

/-- Source `aiLikelihood > 0.4 ? 45 + aiLikelihood * 55 : 8 + aiLikelihood * 35`,
then `Math.round`. -/
def aiDebtContributionOf (a : ℚ) : ℤ :=
  if 0.4 < a then jsRound (45 + a * 55) else jsRound (8 + a * 35)

/-- Issue tags pushed by the Pattern Detector, in source order. -/
def aiIssues (m : Measures) : List String :=
  (if 3 ≤ m.strippedFuncBodies.length then
    (if 0.5 < susRounded m then ["high structural uniformity"]
     else if 0.3 < susRounded m then ["moderate structural uniformity"] else [])
   else []) ++
  (if 0.3 < tddVal m then ["skewed token distribution"] else []) ++
  (if 0.3 < priVal m then ["high pattern repetition"]
   else if 0.1 < priVal m then ["minor pattern repetition"] else []) ++
  (if 0.5 < crsVal m then ["highly redundant comments"]
   else if 0.3 < crsVal m then ["partially redundant comments"] else []) ++
  (if 0.20 < commentShareAI m then ["excessive comments"]
   else if 0.12 < commentShareAI m then ["high comment density"] else []) ++
  (if 0.7 < scsVal m ∧ 20 < (nonEmptyLines m).length then
    ["suspiciously uniform formatting"]
   else if 0.5 < scsVal m ∧ 15 < (nonEmptyLines m).length then
    ["very consistent style"] else []) ++
  (if (totalLines m : ℚ) * 0.008 < (m.genericNames : ℚ) then
    ["overly generic naming"]
   else if (totalLines m : ℚ) * 0.004 < (m.genericNames : ℚ) then
    ["partially generic naming"] else []) ++
  (if m.hasCorpus ∧ 3 < m.crossFileMatches then ["repeated logic across files"] else []) ++
  (if 5 < m.camel ∧ 5 < m.snake then ["inconsistent naming conventions"] else []) ++
  (if 2 < m.longParams then ["long parameter lists"] else []) ++
  (if 6 < m.magicNums then ["magic numbers"] else []) ++
  (if hasAsync m ∧ ¬ hasTryCatch m then ["missing error handling"] else []) ++
  (if 5 < (importLines m).length ∧ isSortedAsc (importLines m) then
    ["perfectly sorted imports"] else []) ++
  (if (totalLines m : ℚ) * 0.05 < (m.typeAnnots : ℚ) then
    ["excessive type annotations"] else [])

/-- Output bundle of `detectAIPatterns`. -/
structure AIResult where
  aiLikelihood : ℚ
  issues : List String
  aiDebtContribution : ℤ
  sus : ℚ
  tdd : ℚ
  pri : ℚ
  crs : ℚ
  scs : ℚ
  deriving DecidableEq

/-- Source `detectAIPatterns` (the variant with SUS/TDD/PRI/CRS/SCS). -/
def detectAIPatterns (m : Measures) : AIResult where
  aiLikelihood := round2 (aiRaw m)
  issues := dedupKeepFirst (aiIssues m)
  aiDebtContribution := aiDebtContributionOf (aiRaw m)
  sus := round2 (susRounded m)
  tdd := round2 (tddVal m)
  pri := round2 (priVal m)
  crs := round2 (crsVal m)
  scs := round2 (scsVal m)

/-! ## Cognitive Debt Estimator (source `detectCognitiveDebt`, enhanced variant) -/

/-- Word list of the useless-comment regex
`/\/\/ (the|this|here|we|it|get|set|return|call|is|are|do|make|add|remove|update|create)\b/`. -/
def cogWordList : List String :=
  ["the", "this", "here", "we", "it", "get", "set", "return", "call", "is",
   "are", "do", "make", "add", "remove", "update", "create"]

/-- Source comment-line filter of the cognitive detector:
`l.trim().startsWith('//') || l.trim().startsWith('#')`. -/
def commentLinesCog (m : Measures) : List String :=
  (jsLines m).filter (fun l => l.trim.startsWith "//" || l.trim.startsWith "#")

/-- Source useless-comment test, applied to `l.toLowerCase()` (the whole line). -/
def isUselessComment (l : String) : Bool :=
  cogWordList.any (fun v => hasWordBoundedOcc l.toLower ("// " ++ v))

/-- Source `uselessComments` count. -/
def uselessCount (m : Measures) : ℕ :=
  ((commentLinesCog m).filter isUselessComment).length

/-- Source CCD: `min(controlFlow / (totalLines * 0.12 + 1), 1)` (unrounded). -/
def ccdVal (m : Measures) : ℚ :=
  min ((m.controlFlow : ℚ) / ((totalLines m : ℚ) * 0.12 + 1)) 1

/-- Source identifier list for ES: matches of `/\b[a-zA-Z_]\w{2,}\b/g`,
i.e. the whole-word identifiers of length at least three. -/
def esIdentifiers (m : Measures) : List String :=
  m.allIds.filter (fun s => 3 ≤ s.length)

/-- Source `avgLen = identifiers.reduce((s,id) => s + id.length, 0) / (identifiers.length || 1)`. -/
def avgIdLen (m : Measures) : ℚ :=
  (((esIdentifiers m).map String.length).sum : ℚ) /
    (max (esIdentifiers m).length 1 : ℕ)

/-- Source ES: `min(avgLen / 12, 1)` (unrounded). -/
def esVal (m : Measures) : ℚ := min (avgIdLen m / 12) 1

/-- Source `commentUsefulness = 1 - min(useless / max(commentLines.length, 1), 1)`. -/
def commentUsefulness (m : Measures) : ℚ :=
  1 - min ((uselessCount m : ℚ) / (max (commentLinesCog m).length 1 : ℕ)) 1

/-- Source AES: `min(sqrt(variance) / 40, 1)` over all line lengths (unrounded). -/
def aesVal (m : Measures) : ℚ := min (m.sdAll / 40) 1

/-- Source `commentRatio = commentLines.length / totalLines` (cognitive detector). -/
def commentShareCog (m : Measures) : ℚ :=
  ((commentLinesCog m).length : ℚ) / (totalLines m : ℚ)

/-- Source RDI: `ratio > 0.3 ? 0.8 : ratio < 0.05 ? 0.55 : 0.3`. -/
def rdiVal (m : Measures) : ℚ :=
  if 0.3 < commentShareCog m then 0.8
  else if commentShareCog m < 0.05 then 0.55 else 0.3

/-- Source `funcDecls = content.match(/function\s+\w+|=>\s*\{/g)?.length || 1`. -/
def cogFuncCount (m : Measures) : ℕ := max m.cogFuncDecls 1

/-- Source `branchingFactor = controlFlow / Math.max(totalLines / 10, 1)`. -/
def branchingFactor (m : Measures) : ℚ :=
  (m.controlFlow : ℚ) / max ((totalLines m : ℚ) / 10) 1

/-- Source `avgFuncLength = totalLines / funcDecls`. -/
def avgFuncLength (m : Measures) : ℚ := (totalLines m : ℚ) / (cogFuncCount m : ℕ)

/-- Source CLI: `round2(min((maxNesting + branchingFactor + avgFuncLength / 50) / 8, 1))`. -/
def cliVal (m : Measures) : ℚ :=
  round2 (min (((maxBraceDepth m.content : ℚ) + branchingFactor m +
    avgFuncLength m / 50) / 8) 1)

/-- Short keywords excluded from the short-identifier filter
(`/^(if|do|in|of|to|or|is|as|it|at|on|up|by)$/i`). -/
def shortKeywordList : List String :=
  ["if", "do", "in", "of", "to", "or", "is", "as", "it", "at", "on", "up", "by"]

/-- Generic-identifier whole-word alternatives of the IAS filter. -/
def genericIdList : List String :=
  ["data", "result", "value", "item", "temp", "tmp", "obj", "arr", "res",
   "val", "ret", "info", "stuff", "thing", "x", "y", "z", "a", "b", "c",
   "d", "e", "f", "n", "i", "j", "k"]

/-- Source `shortIds`: identifiers of length at most two that are not the
excluded keywords (case-insensitive full match). -/
def shortIds (m : Measures) : List String :=
  m.allIds.filter (fun id => id.length ≤ 2 && !(shortKeywordList.contains id.toLower))

/-- Source `genericIds`: identifiers matching the generic-name alternation
(case-insensitive full match). -/
def genericIds (m : Measures) : List String :=
  m.allIds.filter (fun id => genericIdList.contains id.toLower)

/-- Source IAS: `round2(min((short + generic) / max(allIds.length * 0.1, 1), 1))`. -/
def iasVal (m : Measures) : ℚ :=
  round2 (min ((((shortIds m).length + (genericIds m).length : ℕ) : ℚ) /
    max ((m.allIds.length : ℚ) * 0.1) 1) 1)

/-- Source `avgFuncNameLen = sum of captured name lengths / (funcNames.length || 1)`. -/
def avgFuncNameLen (m : Measures) : ℚ :=
  ((m.funcNames.map String.length).sum : ℚ) / (max m.funcNames.length 1 : ℕ)

/-- Source `complexityPerFunc = controlFlow / funcDecls`. -/
def complexityPerFunc (m : Measures) : ℚ :=
  (m.controlFlow : ℚ) / (cogFuncCount m : ℕ)

/-- Source AGS: `round2(min(abs(complexityPerFunc / 5 - avgFuncNameLen / 15), 1))`. -/
def agsVal (m : Measures) : ℚ :=
  round2 (min |complexityPerFunc m / 5 - avgFuncNameLen m / 15| 1)

/-- Source `avgLL`: mean non-empty line length with `|| 1` guard. -/
def avgLineLen (m : Measures) : ℚ :=
  (((nonEmptyLines m).map String.length).sum : ℚ) /
    (max (nonEmptyLines m).length 1 : ℕ)

/-- Source RI: `round2(min((avgLL / 80 + maxNesting / 6 + (1 - namingScore)) / 3, 1))`. -/
def riVal (m : Measures) : ℚ :=
  round2 (min ((avgLineLen m / 80 + (maxBraceDepth m.content : ℚ) / 6 +
    (1 - esVal m)) / 3) 1)

/-- Source CSC: `round2(min((imports + funcCalls / 5) / 20, 1))`. -/
def cscVal (m : Measures) : ℚ :=
  round2 (min (((m.importCount : ℚ) + (m.funcCalls : ℚ) / 5) / 20) 1)

/-- Source weighted cognitive-debt sum
`ccd*0.15 + (1-es)*0.1 + aes*0.1 + rdi*0.1 + cli*0.15 + ias*0.1 + ags*0.1 + ri*0.1 + csc*0.1`. -/
def cogDebtSum (m : Measures) : ℚ :=
  ccdVal m * 0.15 + (1 - esVal m) * 0.1 + aesVal m * 0.1 + rdiVal m * 0.1 +
    cliVal m * 0.15 + iasVal m * 0.1 + agsVal m * 0.1 + riVal m * 0.1 +
    cscVal m * 0.1

/-- Cognitive-debt issue tags, in source order. -/
def cogIssues (m : Measures) : List String :=
  (if 0.6 < ccdVal m then ["high cognitive complexity drift"] else []) ++
  (if avgIdLen m < 5 then ["poor variable naming clarity"] else []) ++
  (if commentUsefulness m < 0.5 then ["low comment usefulness"] else []) ++
  (if m.hasHighLevel ∧ m.hasLowLevel then ["mixed abstraction levels"] else []) ++
  (if 0.7 < cliVal m then ["high cognitive load index"] else []) ++
  (if 0.5 < iasVal m then ["high identifier ambiguity"] else []) ++
  (if 0.6 < agsVal m then ["high abstraction gap"] else []) ++
  (if 0.6 < riVal m then ["low readability index"] else []) ++
  (if 0.7 < cscVal m then ["high context switching cost"] else [])

/-- Core named metrics sub-record returned by the cognitive detector. -/
structure CogMetrics where
  ccd : ℚ
  es : ℚ
  aes : ℚ
  rdi : ℚ
  dps : ℚ
  dli : ℚ
  drf : ℚ
  deriving DecidableEq

/-- Output bundle of `detectCognitiveDebt`. -/
structure CogResult where
  cognitiveDebt : ℚ
  cogIssues : List String
  metrics : CogMetrics
  cli : ℚ
  ias : ℚ
  ags : ℚ
  ri : ℚ
  csc : ℚ
  deriving DecidableEq

/-- Source `detectCognitiveDebt(content, techDebt, aiLikelihood)` (the
variant returning CLI/IAS/AGS/RI/CSC); `techDebt` and `aiLikelihood` are
the already-computed headline scores of the other two detectors. -/
def detectCognitiveDebt (m : Measures) (techDebt aiLikelihood : ℚ) : CogResult where
  cognitiveDebt := round2 (min (cogDebtSum m) 1)
  cogIssues := cogIssues m
  metrics :=
    { ccd := round2 (ccdVal m)
      es := round2 (esVal m)
      aes := round2 (aesVal m)
      rdi := round2 (rdiVal m)
      dps := round2 (techDebt * 0.6 + aiLikelihood * 0.4)
      dli := round2 (techDebt * 0.5 + ccdVal m * 0.5)
      drf := round2 (aesVal m * 0.4 + techDebt * 0.3 + aiLikelihood * 0.3) }
  cli := cliVal m
  ias := iasVal m
  ags := agsVal m
  ri := riVal m
  csc := cscVal m

/-! ## Per-file pipeline (source: analysis loop of the snapshot handler) -/

/-- Full metrics record of a `FileAnalysis` (source `FileMetrics`). -/
structure FullMetrics where
  ccd : ℚ
  es : ℚ
  aes : ℚ
  rdi : ℚ
  dps : ℚ
  dli : ℚ
  drf : ℚ
  cp : ℚ
  ccn : ℕ
  tc : ℚ
  ddp : ℚ
  mds : ℚ
  cli : ℚ
  ias : ℚ
  ags : ℚ
  ri : ℚ
  csc : ℚ
  sus : ℚ
  tdd : ℚ
  pri : ℚ
  crs : ℚ
  scs : ℚ
  deriving DecidableEq

/-- Source `FileAnalysis` record. -/
structure FileAnalysisRec where
  file : String
  aiLikelihood : ℚ
  technicalDebt : ℚ
  cognitiveDebt : ℚ
  propagationScore : ℚ
  issues : List String
  metrics : FullMetrics
  linesOfCode : ℕ
  functions : ℕ
  cyclomaticComplexity : ℕ
  nestingDepth : ℤ
  aiDebtContribution : ℤ
  deriving DecidableEq

/-- Source per-file analysis assembly: runs the three detectors, merges
and deduplicates the issue tags, and derives the CP/CCN/TC proxies
(`cp = r(min(allIssues.length / 8, 1))`, `ccn = linesOfCode`,
`tc = r(min(cp * cyclomaticComplexity / 10, 1))`). -/
def analyzeFile (path : String) (m : Measures) : FileAnalysisRec :=
  let ai := detectAIPatterns m
  let tech := detectTechnicalDebt m
  let cog := detectCognitiveDebt m tech.technicalDebt ai.aiLikelihood
  let allIssues := dedupKeepFirst (ai.issues ++ tech.techIssues ++ cog.cogIssues)
  let cp := round2 (min ((allIssues.length : ℚ) / 8) 1)
  { file := path
    aiLikelihood := ai.aiLikelihood
    technicalDebt := tech.technicalDebt
    cognitiveDebt := cog.cognitiveDebt
    propagationScore := cog.metrics.dps
    issues := allIssues
    metrics :=
      { ccd := cog.metrics.ccd
        es := cog.metrics.es
        aes := cog.metrics.aes
        rdi := cog.metrics.rdi
        dps := cog.metrics.dps
        dli := cog.metrics.dli
        drf := cog.metrics.drf
        cp := cp
        ccn := tech.linesOfCode
        tc := round2 (min (cp * (tech.cyclomaticComplexity : ℚ) / 10) 1)
        ddp := tech.ddp
        mds := tech.mds
        cli := cog.cli
        ias := cog.ias
        ags := cog.ags
        ri := cog.ri
        csc := cog.csc
        sus := ai.sus
        tdd := ai.tdd
        pri := ai.pri
        crs := ai.crs
        scs := ai.scs }
    linesOfCode := tech.linesOfCode
    functions := tech.functions
    cyclomaticComplexity := tech.cyclomaticComplexity
    nestingDepth := tech.nestingDepth
    aiDebtContribution := ai.aiDebtContribution }

/-! ## Propagation Graph Builder (source `buildPropagationGraph`) -/

/-- Source edge kind (`'import'` is spelled `imported` here because
`import` is reserved). -/
inductive EdgeKind where
  | clone
  | dependency
  | pattern
  | imported
  deriving DecidableEq

/-- Source `PropagationEdge`. -/
structure PropEdge where
  source : String
  target : String
  weight : ℚ
  kind : EdgeKind
  deriving DecidableEq

/-- Input to the graph builder: the fields of a `FileAnalysis` the builder
reads, plus `importRefs` — the quoted module references extracted from
the file's raw text by the regex
`/(?:import|require)\s*\(?['"]([^'"]+)['"]\)?/g` (the builder's only use
of the contents map). -/
structure GraphFile where
  file : String
  technicalDebt : ℚ
  aiLikelihood : ℚ
  issues : List String
  importRefs : List String
  deriving DecidableEq

/-- Source needle for import resolution:
`target.replace(/^[.\/]+/, '').split('/').pop() || ''`. -/
def resolveNeedle (target : String) : String :=
  (((target.dropWhile (fun c => c = '.' ∨ c = '/')).splitOn "/").getLastD "")

/-- Import edges: for each file and each module reference, the first file
path containing the reference's final segment
(`filePaths.find(f => f.includes(needle))`); an edge is emitted when it
resolves to a different file, with weight
`r((technicalDebt + aiLikelihood) / 2)`. -/
def importEdges (files : List GraphFile) : List PropEdge :=
  files.flatMap (fun f =>
    f.importRefs.filterMap (fun ref =>
      match (files.map GraphFile.file).find?
          (fun p => jsIncludesStr p (resolveNeedle ref)) with
      | some resolved =>
        if resolved ≠ f.file then
          some { source := f.file, target := resolved
                 weight := round2 ((f.technicalDebt + f.aiLikelihood) / 2)
                 kind := EdgeKind.imported }
        else none
      | none => none))

/-- Shared issue tags of an ordered pair, `files[i].issues.filter(iss =>
files[j].issues.includes(iss))`. -/
def sharedIssues (f g : GraphFile) : List String :=
  f.issues.filter (fun iss => g.issues.contains iss)

/-- Pattern edges: the double loop over index pairs `i < j`, emitting an
edge of weight `r(shared.length / 5)` when at least two tags are shared. -/
def patternEdges : List GraphFile → List PropEdge
  | [] => []
  | f :: rest =>
    (rest.filterMap (fun g =>
      if 2 ≤ (sharedIssues f g).length then
        some { source := f.file, target := g.file
               weight := round2 (((sharedIssues f g).length : ℚ) / 5)
               kind := EdgeKind.pattern }
      else none)) ++ patternEdges rest

/-- Source `buildPropagationGraph`: import edges, then pattern edges,
truncated with `edges.slice(0, 35)`. -/
def buildPropagationGraph (files : List GraphFile) : List PropEdge :=
  (importEdges files ++ patternEdges files).take 35

/-! ## UI display derivative (source `DebtBreakdown` component) -/

/-- Source duplication display bar of `DebtBreakdown`: `rand` is the
`Math.random()` sample drawn during rendering. -/
def duplicationDisplay (fa : FileAnalysisRec) (rand : ℚ) : ℚ :=
  if fa.issues.contains "duplicate code blocks" ||
      fa.issues.contains "duplicate code" then
    0.7 + rand * 0.3
  else fa.metrics.dps * 0.5

/-- One render of the core analysis plus the UI duplication derivative
for a given random sample. -/
def displayRun (path : String) (m : Measures) (rand : ℚ) :
    FileAnalysisRec × ℚ :=
  let fa := analyzeFile path m
  (fa, duplicationDisplay fa rand)

/-! ## Commit Timeline Accumulator (source: history handler and `scorePatch`) -/

/-- Measurements of one file's unified diff: `patch` is the raw patch
text; the other fields record the regex counts `scorePatch` takes over
the joined added/removed lines:
* `addedBranches`, `removedBranches` — counts of
  `/\b(if|else|for|while|switch|catch|&&|\|\|)\b/g`;
* `genericCount` — count of `/\b(temp|data|result|...|foo|bar)\b/g` on
  the added text;
* `magicCount` — count of `/(?<![.\w])\d{2,}(?![.\w])/g` on the added text. -/
structure PatchMeasures where
  patch : String
  addedBranches : ℕ
  removedBranches : ℕ
  genericCount : ℕ
  magicCount : ℕ
  deriving DecidableEq

/-- Source `addedLines = patch.split('\n').filter(l => l.startsWith('+') && !l.startsWith('+++'))`. -/
def addedLines (p : PatchMeasures) : List String :=
  (p.patch.splitOn "\n").filter (fun l =>
    l.startsWith "+" && !(l.startsWith "+++"))

/-- Source `removedLines`, the `-` counterpart. -/
def removedLines (p : PatchMeasures) : List String :=
  (p.patch.splitOn "\n").filter (fun l =>
    l.startsWith "-" && !(l.startsWith "---"))

/-- Count of `{` characters in a string (`(s.match(/{/g) || []).length`). -/
def braceCount (s : String) : ℕ := (s.data.filter (fun c => c = '{')).length

/-- Source `added = addedLines.join('\n')` brace count. -/
def addedBraces (p : PatchMeasures) : ℕ :=
  braceCount (String.intercalate "\n" (addedLines p))

/-- Source `removed` brace count. -/
def removedBraces (p : PatchMeasures) : ℕ :=
  braceCount (String.intercalate "\n" (removedLines p))

/-- Source `netLines = addedLines.length - removedLines.length`. -/
def netLines (p : PatchMeasures) : ℤ :=
  (addedLines p).length - (removedLines p).length

/-- Source duplicate-line keys: `addedLines.map(l => l.slice(1).trim()).filter(l => l.length > 20)`. -/
def addedTrimmed (p : PatchMeasures) : List String :=
  ((addedLines p).map (fun l => (l.drop 1).trim)).filter (fun l => 20 < l.length)

/-- Source `dupes = [...freq.values()].filter(v => v >= 3).length`. -/
def patchDupes (p : PatchMeasures) : ℕ := countRepeats (addedTrimmed p) 3

/-- Source added-comment filter `l.match(/^\+\s*(\/\/|#|\*)/)`. -/
def addedComments (p : PatchMeasures) : List String :=
  (addedLines p).filter (fun l =>
    (l.drop 1).trimLeft.startsWith "//" || (l.drop 1).trimLeft.startsWith "#" ||
      (l.drop 1).trimLeft.startsWith "*")

/-- Source `added.includes('async') || added.includes('await')`. -/
def patchHasAsync (p : PatchMeasures) : Bool :=
  jsIncludes (String.intercalate "\n" (addedLines p)) "async" ||
    jsIncludes (String.intercalate "\n" (addedLines p)) "await"

/-- Source `added.includes('try') && added.includes('catch')`. -/
def patchHasTryCatch (p : PatchMeasures) : Bool :=
  jsIncludes (String.intercalate "\n" (addedLines p)) "try" &&
    jsIncludes (String.intercalate "\n" (addedLines p)) "catch"

/-- Source `techDelta` accumulation of `scorePatch`, one summand per
`techDelta +=` site. -/
def patchTechDelta (p : PatchMeasures) : ℚ :=
  (if removedBraces p + 3 < addedBraces p then 0.15 else 0) +
  max 0 (((p.addedBranches : ℚ) - (p.removedBranches : ℚ)) * 0.02) +
  (if 50 < netLines p then 0.1 else 0) +
  (if 100 < netLines p then 0.15 else 0) +
  (if 0 < patchDupes p then 0.1 else 0) +
  (if 3 < p.magicCount then 0.05 else 0) +
  (if patchHasAsync p ∧ ¬ patchHasTryCatch p then 0.08 else 0)

/-- Source `cogDelta` accumulation of `scorePatch`. -/
def patchCogDelta (p : PatchMeasures) : ℚ :=
  (if 5 < p.genericCount then 0.1 else 0) +
  (if ((addedLines p).length : ℚ) * 0.3 < ((addedComments p).length : ℚ) then 0.1
   else 0)

/-- Source `aiDelta` accumulation of `scorePatch`. -/
def patchAiDelta (p : PatchMeasures) : ℚ :=
  (if 0 < patchDupes p then 0.12 else 0) +
  (if 5 < p.genericCount then 0.08 else 0) +
  (if ((addedLines p).length : ℚ) * 0.3 < ((addedComments p).length : ℚ) then 0.1
   else 0)

/-- Source `scorePatch`: each delta capped at 1 with `Math.min`. -/
def scorePatch (p : PatchMeasures) : ℚ × ℚ × ℚ :=
  (min (patchTechDelta p) 1, min (patchCogDelta p) 1, min (patchAiDelta p) 1)

/-- One commit's detail fetch result: the changed files (`none` for a
file without a `patch` field), plus `stats.additions` and
`stats.deletions`. -/
structure CommitDetail where
  files : List (Option PatchMeasures)
  additions : ℕ
  deletions : ℕ
  deriving DecidableEq

/-- One commit of the history listing; `detail = none` models a failed
per-commit detail fetch (the `catch` branch of the loop body). -/
structure CommitInfo where
  sha : String
  message : String
  author : String
  date : String
  detail : Option CommitDetail
  deriving DecidableEq

/-- Source inner loop: `scorePatch` summed over the first ten files that
carry a patch. -/
def sumScores (fs : List (Option PatchMeasures)) : ℚ × ℚ × ℚ :=
  fs.foldl
    (fun acc f =>
      match f with
      | some p =>
        (acc.1 + (scorePatch p).1, acc.2.1 + (scorePatch p).2.1,
          acc.2.2 + (scorePatch p).2.2)
      | none => acc)
    (0, 0, 0)

/-- Source per-commit deltas: the summed scores over `files.slice(0, 10)`,
divided by `Math.max(filesChanged, 1)` when `filesChanged > 0`. -/
def commitDeltas (d : CommitDetail) : ℚ × ℚ × ℚ :=
  let s := sumScores (d.files.take 10)
  if 0 < d.files.length then
    (s.1 / (max d.files.length 1 : ℕ), s.2.1 / (max d.files.length 1 : ℕ),
      s.2.2 / (max d.files.length 1 : ℕ))
  else s

/-- Normalised technical-debt delta of one commit. -/
def commitTechDelta (d : CommitDetail) : ℚ := (commitDeltas d).1

/-- Normalised cognitive-debt delta of one commit. -/
def commitCogDelta (d : CommitDetail) : ℚ := (commitDeltas d).2.1

/-- Normalised AI-contribution delta of one commit. -/
def commitAiDelta (d : CommitDetail) : ℚ := (commitDeltas d).2.2

/-- Source `netGrowth = (additions - deletions) / Math.max(additions + deletions, 1)`. -/
def netGrowthOf (d : CommitDetail) : ℚ :=
  ((d.additions : ℚ) - (d.deletions : ℚ)) /
    max ((d.additions : ℚ) + (d.deletions : ℚ)) 1

/-- Source `growthFactor = netGrowth > 0 ? 1 + netGrowth * 0.3 : 1 + netGrowth * 0.1`. -/
def growthFactorOf (d : CommitDetail) : ℚ :=
  if 0 < netGrowthOf d then 1 + netGrowthOf d * 0.3 else 1 + netGrowthOf d * 0.1

/-- Running accumulator state (`runningTech`, `runningCog`, `runningAi`). -/
structure RunState where
  tech : ℚ
  cog : ℚ
  ai : ℚ
  deriving DecidableEq

/-- Source seed: `runningTech = 0.1; runningCog = 0.1; runningAi = 0.05`. -/
def seedState : RunState := { tech := 0.1, cog := 0.1, ai := 0.05 }

/-- Source `CommitAnalysis` record. -/
structure CommitRec where
  sha : String
  message : String
  author : String
  date : String
  techDebt : ℚ
  cogDebt : ℚ
  aiContribution : ℚ
  filesChanged : ℕ
  additions : ℕ
  deletions : ℕ
  isSpike : Bool
  deriving DecidableEq

/-- Record pushed for one commit: short hash, first message line capped
at 80 characters, the running state rounded to two decimals, and
`isSpike: false`. -/
def mkCommitRec (c : CommitInfo) (s : RunState) (fc add del : ℕ) : CommitRec where
  sha := c.sha.take 7
  message := ((c.message.splitOn "\n").headD "").take 80
  author := c.author
  date := c.date
  techDebt := round2 s.tech
  cogDebt := round2 s.cog
  aiContribution := round2 s.ai
  filesChanged := fc
  additions := add
  deletions := del
  isSpike := false

/-- One iteration of the source commit loop: on a successful detail
fetch the running state is advanced by the clamped recurrence; on a
failed fetch (`catch`) the state is left unchanged and the counters stay
zero. Either way a record is pushed. -/
def stepCommit (s : RunState) (c : CommitInfo) : RunState × CommitRec :=
  match c.detail with
  | none => (s, mkCommitRec c s 0 0 0)
  | some d =>
    let s' : RunState :=
      { tech := clamp01 (s.tech * growthFactorOf d + commitTechDelta d)
        cog := clamp01 (s.cog * growthFactorOf d + commitCogDelta d)
        ai := clamp01 (s.ai + commitAiDelta d * 0.5) }
    (s', mkCommitRec c s' d.files.length d.additions d.deletions)

/-- The commit loop threading the running state oldest-to-newest. -/
def runCommitsAux (s : RunState) : List CommitInfo → List CommitRec
  | [] => []
  | c :: cs =>
    (stepCommit s c).2 :: runCommitsAux (stepCommit s c).1 cs

/-- Source loop over `orderedCommits` starting from the seed state. -/
def runCommits (cs : List CommitInfo) : List CommitRec :=
  runCommitsAux seedState cs

/-- Source spike update for one record given its predecessor:
`techJump > 0.08 || cogJump > 0.08` sets `isSpike` (threshold 0.08,
strict comparison). -/
def markStep (p r : CommitRec) : CommitRec :=
  if 0.08 < r.techDebt - p.techDebt ∨ 0.08 < r.cogDebt - p.cogDebt then
    { r with isSpike := true }
  else r

/-- Spike loop body from index 1 onward. -/
def markSpikesAux (prev : CommitRec) : List CommitRec → List CommitRec
  | [] => []
  | r :: t => markStep prev r :: markSpikesAux r t

/-- Source spike detection loop (`for i = 1; i < analyses.length; i++`):
record 0 is never marked. -/
def markSpikes : List CommitRec → List CommitRec
  | [] => []
  | r :: t => r :: markSpikesAux r t

/-- Timeline produced by the history handler: accumulated records with
spikes marked. -/
def timeline (cs : List CommitInfo) : List CommitRec :=
  markSpikes (runCommits cs)

/-- Fallback record used only to spell `recentSlice[0]` /
`recentSlice[last]` totally; in the reachable branch the slice is
non-empty, so the fallback is never read. -/
def defaultRec : CommitRec :=
  { sha := "", message := "", author := "", date := "", techDebt := 0
    cogDebt := 0, aiContribution := 0, filesChanged := 0, additions := 0
    deletions := 0, isSpike := false }

/-- Summary payload of the history response (the developer leaderboard,
an independent aggregation that cannot fail on any input, is omitted). -/
structure HistoryResult where
  commits : List CommitRec
  trend : String
  momentum : String
  predictionTech5 : ℚ
  predictionTech10 : ℚ
  predictionCog5 : ℚ
  predictionCog10 : ℚ
  spikeCount : ℕ
  deriving DecidableEq

/-- Source history handler after the commit loop. The trend block reads
`analyses[0]` and `analyses[analyses.length - 1]`; on an empty commit
list both are `undefined` and the member access throws a `TypeError`,
which the handler's outer `catch` turns into an error response — the
`Except.error` branch. -/
def analyzeHistory (cs : List CommitInfo) : Except String HistoryResult :=
  let analyses := timeline cs
  let spikeCount := (analyses.filter (fun a => a.isSpike)).length
  match analyses.head?, analyses.getLast? with
  | some first, some last =>
    let techSlope := last.techDebt - first.techDebt
    let cogSlope := last.cogDebt - first.cogDebt
    let avgSlope := (techSlope + cogSlope) / 2
    let trend :=
      if 0.15 < avgSlope then "increasing"
      else if avgSlope < -0.1 then "improving"
      else if 3 < spikeCount then "unstable"
      else "fluctuating"
    let recentSlice := analyses.drop (analyses.length - 5)
    let recentSlope :=
      if 1 < recentSlice.length then
        ((recentSlice.getLastD defaultRec).techDebt -
          (recentSlice.headD defaultRec).techDebt) / (recentSlice.length : ℚ)
      else 0
    let momentum :=
      if 0.05 < recentSlope then "fast"
      else if 0 < recentSlope then "slow"
      else "stable"
    Except.ok
      { commits := analyses
        trend := trend
        momentum := momentum
        predictionTech5 := round2 (clamp01 (last.techDebt + techSlope * 0.5))
        predictionTech10 := round2 (clamp01 (last.techDebt + techSlope))
        predictionCog5 := round2 (clamp01 (last.cogDebt + cogSlope * 0.5))
        predictionCog10 := round2 (clamp01 (last.cogDebt + cogSlope))
        spikeCount := spikeCount }
  | _, _ => Except.error "TypeError: cannot read techDebt of undefined"

/-! ## Sample inputs used to instantiate theorems with hypotheses -/

/-- Membership in the unit interval. -/
def inUnit (x : ℚ) : Prop := 0 ≤ x ∧ x ≤ 1

/-- Measurements of the empty file in an empty corpus. -/
def sampleMeasures : Measures where
  content := ""
  strippedFuncBodies := []
  tokens := []
  genericNames := 0
  camel := 0
  snake := 0
  longParams := 0
  magicNums := 0
  typeAnnots := 0
  hasCorpus := false
  crossFileMatches := 0
  branches := 0
  controlFlow := 0
  allIds := []
  funcMatchesLong := 0
  funcDeclTech := 0
  blockKeys := []
  importCount := 0
  exportCount := 0
  cogFuncDecls := 0
  funcNames := []
  funcCalls := 0
  hasHighLevel := false
  hasLowLevel := false
  sdNonEmpty := 0
  sdAll := 0

/-- A commit whose detail fetch succeeded: no scoreable files, three
added and one deleted line. -/
def sampleDetail : CommitDetail where
  files := []
  additions := 3
  deletions := 1

/-- A commit with a successful detail fetch. -/
def sampleCommitOk : CommitInfo where
  sha := "0123456789abcdef"
  message := "add feature"
  author := "dev one"
  date := "2024-01-01"
  detail := some sampleDetail

/-- A commit whose detail fetch failed. -/
def sampleCommitFail : CommitInfo where
  sha := "fedcba9876543210"
  message := "fix bug"
  author := "dev two"
  date := "2024-01-02"
  detail := none

/-- A two-commit history. -/
def sampleCommits : List CommitInfo := [sampleCommitOk, sampleCommitFail]

/-- Nine files with identical issue pairs: every one of the 36 unordered
pairs shares exactly two tags, so the builder sees 36 candidate edges. -/
def capFiles : List GraphFile :=
  (List.range 9).map (fun i =>
    { file := "src/f" ++ toString i ++ ".ts"
      technicalDebt := 1/2
      aiLikelihood := 1/2
      issues := ["magic numbers", "missing error handling"]
      importRefs := [] })

/-- A file sharing six issue tags with `cxFileB`. -/
def cxFileA : GraphFile where
  file := "a.ts"
  technicalDebt := 1/2
  aiLikelihood := 1/2
  issues := ["i1", "i2", "i3", "i4", "i5", "i6"]
  importRefs := []

/-- A file sharing six issue tags with `cxFileA`. -/
def cxFileB : GraphFile where
  file := "b.ts"
  technicalDebt := 1/2
  aiLikelihood := 1/2
  issues := ["i1", "i2", "i3", "i4", "i5", "i6"]
  importRefs := []

/-! ## Basic numeric lemmas -/

theorem jsRound_nonneg {x : ℚ} (h : 0 ≤ x) : 0 ≤ jsRound x :=
  Int.floor_nonneg.mpr (by linarith)

theorem jsRound_le {x : ℚ} {n : ℤ} (h : x ≤ n) : jsRound x ≤ n := by
  unfold jsRound
  calc ⌊x + 1/2⌋ ≤ ⌊(n : ℚ) + 1/2⌋ := Int.floor_mono (by linarith)
    _ = ⌊(1/2 : ℚ)⌋ + n := by rw [add_comm ((n : ℚ)) (1/2), Int.floor_add_int]
    _ = n := by norm_num

theorem round2_nonneg {x : ℚ} (h : 0 ≤ x) : 0 ≤ round2 x := by
  unfold round2
  have h1 : (0 : ℤ) ≤ jsRound (x * 100) := jsRound_nonneg (by linarith)
  positivity

theorem round2_le_one {x : ℚ} (h : x ≤ 1) : round2 x ≤ 1 := by
  unfold round2
  rw [div_le_one (by norm_num)]
  have h1 : jsRound (x * 100) ≤ (100 : ℤ) := jsRound_le (by push_cast; linarith)
  exact_mod_cast h1

theorem inUnit_round2 {x : ℚ} (h0 : 0 ≤ x) (h1 : x ≤ 1) : inUnit (round2 x) :=
  ⟨round2_nonneg h0, round2_le_one h1⟩

theorem inUnit_min1 {x : ℚ} (h : 0 ≤ x) : inUnit (min x 1) :=
  ⟨le_min h zero_le_one, min_le_right x 1⟩

theorem inUnit_round2_min1 {x : ℚ} (h : 0 ≤ x) : inUnit (round2 (min x 1)) :=
  inUnit_round2 (inUnit_min1 h).1 (inUnit_min1 h).2

theorem inUnit_clamp01 (x : ℚ) : inUnit (clamp01 x) :=
  ⟨le_min (le_max_right x 0) zero_le_one, min_le_right _ 1⟩

theorem qmax1_pos (x : ℚ) : 0 < max x 1 :=
  lt_of_lt_of_le zero_lt_one (le_max_right x 1)

theorem nmax1_cast_pos (n : ℕ) : (0 : ℚ) < ((max n 1 : ℕ) : ℚ) := by
  have : 0 < max n 1 := by omega
  exact_mod_cast this

/-! ## Non-negativity of the scanned quantities -/

theorem braceStep_snd_le (p : ℤ × ℤ) (c : Char) : p.2 ≤ (braceStep p c).2 := by
  unfold braceStep
  split_ifs <;> simp [le_max_left]

theorem braceFold_snd_le (l : List Char) :
    ∀ p : ℤ × ℤ, p.2 ≤ (l.foldl braceStep p).2 := by
  induction l with
  | nil => intro p; simp
  | cons c t ih =>
    intro p
    calc p.2 ≤ (braceStep p c).2 := braceStep_snd_le p c
      _ ≤ (t.foldl braceStep (braceStep p c)).2 := ih _

theorem maxBraceDepth_nonneg (s : String) : 0 ≤ maxBraceDepth s := by
  have h := braceFold_snd_le s.data (0, 0)
  simpa [maxBraceDepth] using h

theorem dedup_length_le (l : List String) : l.dedup.length ≤ l.length :=
  l.dedup_sublist.length_le

theorem dedup_length_pos {l : List String} (h : l ≠ []) : 0 < l.dedup.length := by
  rw [List.length_pos]
  simp [List.dedup_eq_nil, h]

/-! ## Range lemmas for the Pattern Detector sub-metrics -/

theorem susRounded_mem (m : Measures) : inUnit (susRounded m) := by
  unfold susRounded
  split_ifs with h
  · have hne : m.strippedFuncBodies ≠ [] := by
      intro hnil; rw [hnil] at h; simp at h
    have hpos : (0 : ℚ) < (m.strippedFuncBodies.length : ℚ) := by
      have : 0 < m.strippedFuncBodies.length := by omega
      exact_mod_cast this
    have hu1 : (0 : ℚ) ≤ (m.strippedFuncBodies.dedup.length : ℚ) := by positivity
    have hu2 : (m.strippedFuncBodies.dedup.length : ℚ) ≤
        (m.strippedFuncBodies.length : ℚ) := by
      exact_mod_cast dedup_length_le m.strippedFuncBodies
    have hdle : (m.strippedFuncBodies.dedup.length : ℚ) /
        (m.strippedFuncBodies.length : ℚ) ≤ 1 := by
      rw [div_le_one hpos]; exact hu2
    have hdnn : (0 : ℚ) ≤ (m.strippedFuncBodies.dedup.length : ℚ) /
        (m.strippedFuncBodies.length : ℚ) := by positivity
    exact inUnit_round2 (by linarith) (by linarith)
  · exact ⟨le_refl 0, zero_le_one⟩

theorem tddVal_mem (m : Measures) : inUnit (tddVal m) := by
  unfold tddVal
  exact inUnit_round2_min1 (by positivity)

theorem priVal_mem (m : Measures) : inUnit (priVal m) := by
  unfold priVal
  have hd : (0 : ℚ) < max (((nonEmptyLines m).length : ℚ) * 0.1) 1 := qmax1_pos _
  exact inUnit_round2_min1 (by positivity)

theorem crsVal_mem (m : Measures) : inUnit (crsVal m) := by
  unfold crsVal
  have hd := nmax1_cast_pos (commentLinesAI m).length
  exact inUnit_round2_min1 (by positivity)

theorem scsVal_mem {m : Measures} (h : 0 ≤ m.sdNonEmpty) : inUnit (scsVal m) := by
  unfold scsVal
  refine inUnit_round2 (le_max_left 0 _) (max_le zero_le_one ?_)
  have : 0 ≤ m.sdNonEmpty / 30 := by positivity
  linarith

theorem aiScore_nonneg (m : Measures) : 0 ≤ aiScore m := by
  unfold aiScore
  have hc : (0 : ℚ) ≤ 0.2 * ((min m.funcMatchesLong 3 : ℕ) : ℚ) := by positivity
  repeat' apply add_nonneg
  all_goals split_ifs <;> norm_num

theorem iasProxy_mem (m : Measures) : inUnit (iasProxy m) := by
  unfold iasProxy
  split_ifs with h
  · exact ⟨le_refl 0, zero_le_one⟩
  · have hd : (0 : ℚ) < max ((totalLines m : ℚ) * 0.01) 1 := qmax1_pos _
    exact inUnit_min1 (by positivity)

theorem weightedAI_nonneg (m : Measures) : 0 ≤ weightedAI m := by
  unfold weightedAI
  have h1 := (susRounded_mem m).1
  have h2 := (priVal_mem m).1
  have h3 := (crsVal_mem m).1
  have h4 := (iasProxy_mem m).1
  have h5 : (0 : ℚ) ≤ max 0 (entropyProxy m) := le_max_left 0 _
  positivity

theorem aiRaw_mem (m : Measures) : inUnit (aiRaw m) := by
  unfold aiRaw
  refine inUnit_min1 ?_
  have h := aiScore_nonneg m
  calc (0 : ℚ) ≤ aiScore m + 0.05 := by linarith
    _ ≤ max (aiScore m + 0.05) (weightedAI m) := le_max_left _ _

theorem aiDebtContribution_bounds {a : ℚ} (h0 : 0 ≤ a) (h1 : a ≤ 1) :
    0 ≤ aiDebtContributionOf a ∧ aiDebtContributionOf a ≤ 100 := by
  unfold aiDebtContributionOf
  split_ifs with h
  · exact ⟨jsRound_nonneg (by linarith), jsRound_le (by push_cast; linarith)⟩
  · exact ⟨jsRound_nonneg (by linarith), jsRound_le (by push_cast; linarith)⟩

/-! ## Range lemmas for the Technical Debt Estimator -/

theorem mdsVal_mem (m : Measures) : inUnit (mdsVal m) := by
  unfold mdsVal
  have hd : (0 : ℚ) < (((max m.exportCount 1 : ℕ) * 3 : ℕ) : ℚ) := by
    have : 0 < (max m.exportCount 1) * 3 := by omega
    exact_mod_cast this
  exact inUnit_round2_min1 (by positivity)

theorem ddpVal_mem (m : Measures) : inUnit (ddpVal m) := by
  unfold ddpVal
  have hd : (0 : ℚ) < max ((linesOfCode m : ℚ) / 100) 1 := qmax1_pos _
  exact inUnit_round2_min1 (by positivity)

theorem techDebtSum_nonneg (m : Measures) : 0 ≤ techDebtSum m := by
  unfold techDebtSum
  have hc : (0 : ℚ) ≤ 0.2 * ((min m.funcMatchesLong 3 : ℕ) : ℚ) := by positivity
  repeat' apply add_nonneg
  all_goals split_ifs <;> first | assumption | norm_num

theorem technicalDebt_mem (m : Measures) :
    inUnit (detectTechnicalDebt m).technicalDebt :=
  inUnit_round2_min1 (techDebtSum_nonneg m)

/-! ## Range lemmas for the Cognitive Debt Estimator -/

theorem ccdVal_mem (m : Measures) : inUnit (ccdVal m) := by
  unfold ccdVal
  have hd : (0 : ℚ) < (totalLines m : ℚ) * 0.12 + 1 := by positivity
  exact inUnit_min1 (by positivity)

theorem avgIdLen_nonneg (m : Measures) : 0 ≤ avgIdLen m := by
  unfold avgIdLen
  have hd := nmax1_cast_pos (esIdentifiers m).length
  have hn : (0 : ℚ) ≤ (((esIdentifiers m).map String.length).sum : ℚ) := by positivity
  positivity

theorem esVal_mem (m : Measures) : inUnit (esVal m) := by
  unfold esVal
  exact inUnit_min1 (by have := avgIdLen_nonneg m; positivity)

theorem aesVal_mem {m : Measures} (h : 0 ≤ m.sdAll) : inUnit (aesVal m) := by
  unfold aesVal
  exact inUnit_min1 (by positivity)

theorem rdiVal_mem (m : Measures) : inUnit (rdiVal m) := by
  unfold rdiVal
  split_ifs <;> exact ⟨by norm_num, by norm_num⟩

theorem cliVal_mem (m : Measures) : inUnit (cliVal m) := by
  unfold cliVal
  have h1 := maxBraceDepth_nonneg m.content
  have h1q : (0 : ℚ) ≤ (maxBraceDepth m.content : ℚ) := by exact_mod_cast h1
  have h2 : (0 : ℚ) ≤ branchingFactor m := by
    unfold branchingFactor
    have hd : (0 : ℚ) < max ((totalLines m : ℚ) / 10) 1 := qmax1_pos _
    positivity
  have h3 : (0 : ℚ) ≤ avgFuncLength m := by
    unfold avgFuncLength
    positivity
  exact inUnit_round2_min1 (by positivity)

theorem iasVal_mem (m : Measures) : inUnit (iasVal m) := by
  unfold iasVal
  have hd : (0 : ℚ) < max ((m.allIds.length : ℚ) * 0.1) 1 := qmax1_pos _
  exact inUnit_round2_min1 (by positivity)

theorem agsVal_mem (m : Measures) : inUnit (agsVal m) := by
  unfold agsVal
  exact inUnit_round2_min1 (abs_nonneg _)

theorem riVal_mem (m : Measures) : inUnit (riVal m) := by
  unfold riVal
  have h1 : (0 : ℚ) ≤ avgLineLen m := by
    unfold avgLineLen
    have hd := nmax1_cast_pos (nonEmptyLines m).length
    have hn : (0 : ℚ) ≤ (((nonEmptyLines m).map String.length).sum : ℚ) := by
      positivity
    positivity
  have h2 : (0 : ℚ) ≤ (maxBraceDepth m.content : ℚ) := by
    exact_mod_cast maxBraceDepth_nonneg m.content
  have h3 : 0 ≤ 1 - esVal m := by have := (esVal_mem m).2; linarith
  exact inUnit_round2_min1 (by positivity)

theorem cscVal_mem (m : Measures) : inUnit (cscVal m) := by
  unfold cscVal
  exact inUnit_round2_min1 (by positivity)

theorem cogDebtSum_nonneg {m : Measures} (h : 0 ≤ m.sdAll) : 0 ≤ cogDebtSum m := by
  unfold cogDebtSum
  have h1 := (ccdVal_mem m).1
  have h2 : 0 ≤ 1 - esVal m := by have := (esVal_mem m).2; linarith
  have h3 := (aesVal_mem h).1
  have h4 := (rdiVal_mem m).1
  have h5 := (cliVal_mem m).1
  have h6 := (iasVal_mem m).1
  have h7 := (agsVal_mem m).1
  have h8 := (riVal_mem m).1
  have h9 := (cscVal_mem m).1
  positivity

theorem linearMix2_mem {t a : ℚ} (ht : inUnit t) (ha : inUnit a)
    {p q : ℚ} (hp : 0 ≤ p) (hq : 0 ≤ q) (hpq : p + q = 1) :
    inUnit (round2 (t * p + a * q)) := by
  obtain ⟨ht0, ht1⟩ := ht
  obtain ⟨ha0, ha1⟩ := ha
  refine inUnit_round2 (by positivity) ?_
  nlinarith

theorem linearMix3_mem {x t a : ℚ} (hx : inUnit x) (ht : inUnit t) (ha : inUnit a)
    {p q s : ℚ} (hp : 0 ≤ p) (hq : 0 ≤ q) (hs : 0 ≤ s) (hpqs : p + q + s = 1) :
    inUnit (round2 (x * p + t * q + a * s)) := by
  obtain ⟨hx0, hx1⟩ := hx
  obtain ⟨ht0, ht1⟩ := ht
  obtain ⟨ha0, ha1⟩ := ha
  refine inUnit_round2 (by positivity) ?_
  nlinarith

theorem aiLikelihood_mem (m : Measures) : inUnit (round2 (aiRaw m)) :=
  inUnit_round2 (aiRaw_mem m).1 (aiRaw_mem m).2

/-- C1: for every input text and corpus context, the headline scores
`aiLikelihood`, `technicalDebt`, `cognitiveDebt`, `propagationScore` and
every named sub-metric (SUS, TDD, PRI, CRS, SCS, CCD, ES, AES, RDI, CLI,
IAS, AGS, RI, CSC, DDP, MDS, DPS, DLI, DRF) lie in `[0,1]`, and
`aiDebtContribution` lies in `[0,100]`.  The two hypotheses record that
the measured standard deviations are `Math.sqrt` outputs, hence
non-negative; in the rational embedding no value can be NaN. -/
theorem c1_all_scores_bounded (path : String) (m : Measures)
    (hne : 0 ≤ m.sdNonEmpty) (hall : 0 ≤ m.sdAll) :
    inUnit (analyzeFile path m).aiLikelihood ∧
    inUnit (analyzeFile path m).technicalDebt ∧
    inUnit (analyzeFile path m).cognitiveDebt ∧
    inUnit (analyzeFile path m).propagationScore ∧
    inUnit (analyzeFile path m).metrics.sus ∧
    inUnit (analyzeFile path m).metrics.tdd ∧
    inUnit (analyzeFile path m).metrics.pri ∧
    inUnit (analyzeFile path m).metrics.crs ∧
    inUnit (analyzeFile path m).metrics.scs ∧
    inUnit (analyzeFile path m).metrics.ccd ∧
    inUnit (analyzeFile path m).metrics.es ∧
    inUnit (analyzeFile path m).metrics.aes ∧
    inUnit (analyzeFile path m).metrics.rdi ∧
    inUnit (analyzeFile path m).metrics.cli ∧
    inUnit (analyzeFile path m).metrics.ias ∧
    inUnit (analyzeFile path m).metrics.ags ∧
    inUnit (analyzeFile path m).metrics.ri ∧
    inUnit (analyzeFile path m).metrics.csc ∧
    inUnit (analyzeFile path m).metrics.ddp ∧
    inUnit (analyzeFile path m).metrics.mds ∧
    inUnit (analyzeFile path m).metrics.dps ∧
    inUnit (analyzeFile path m).metrics.dli ∧
    inUnit (analyzeFile path m).metrics.drf ∧
    0 ≤ (analyzeFile path m).aiDebtContribution ∧
    (analyzeFile path m).aiDebtContribution ≤ 100 := by
  refine ⟨?_, ?_, ?_, ?_, ?_, ?_, ?_, ?_, ?_, ?_, ?_, ?_, ?_, ?_, ?_, ?_,
    ?_, ?_, ?_, ?_, ?_, ?_, ?_, ?_, ?_⟩
  · exact aiLikelihood_mem m
  · exact technicalDebt_mem m
  · exact inUnit_round2_min1 (cogDebtSum_nonneg hall)
  · exact linearMix2_mem (technicalDebt_mem m) (aiLikelihood_mem m)
      (by norm_num) (by norm_num) (by norm_num)
  · exact inUnit_round2 (susRounded_mem m).1 (susRounded_mem m).2
  · exact inUnit_round2 (tddVal_mem m).1 (tddVal_mem m).2
  · exact inUnit_round2 (priVal_mem m).1 (priVal_mem m).2
  · exact inUnit_round2 (crsVal_mem m).1 (crsVal_mem m).2
  · exact inUnit_round2 (scsVal_mem hne).1 (scsVal_mem hne).2
  · exact inUnit_round2 (ccdVal_mem m).1 (ccdVal_mem m).2
  · exact inUnit_round2 (esVal_mem m).1 (esVal_mem m).2
  · exact inUnit_round2 (aesVal_mem hall).1 (aesVal_mem hall).2
  · exact inUnit_round2 (rdiVal_mem m).1 (rdiVal_mem m).2
  · exact cliVal_mem m
  · exact iasVal_mem m
  · exact agsVal_mem m
  · exact riVal_mem m
  · exact cscVal_mem m
  · exact ddpVal_mem m
  · exact mdsVal_mem m
  · exact linearMix2_mem (technicalDebt_mem m) (aiLikelihood_mem m)
      (by norm_num) (by norm_num) (by norm_num)
  · exact linearMix2_mem (technicalDebt_mem m) (ccdVal_mem m)
      (by norm_num) (by norm_num) (by norm_num)
  · exact linearMix3_mem (aesVal_mem hall) (technicalDebt_mem m)
      (aiLikelihood_mem m) (by norm_num) (by norm_num) (by norm_num)
      (by norm_num)
  · exact (aiDebtContribution_bounds (aiRaw_mem m).1 (aiRaw_mem m).2).1
  · exact (aiDebtContribution_bounds (aiRaw_mem m).1 (aiRaw_mem m).2).2

/-- Witness for C1: the empty file in an empty corpus satisfies the
hypotheses, and the theorem applies to it. -/
theorem c1_witness :
    0 ≤ sampleMeasures.sdNonEmpty ∧ 0 ≤ sampleMeasures.sdAll ∧
    inUnit (analyzeFile "empty.ts" sampleMeasures).aiLikelihood :=
  ⟨le_refl 0, le_refl 0,
    (c1_all_scores_bounded "empty.ts" sampleMeasures (le_refl 0) (le_refl 0)).1⟩

/-- C2: the Pattern Detector's final likelihood (source local
`aiLikelihood`) equals `clamp(max(score + 0.05, weightedAI), 0, 1)`,
`weightedAI` is the fixed linear combination
`0.25·SUS + 0.20·PRI + 0.20·CRS + 0.15·iasProxy + 0.20·entropyProxy`,
and the returned field rounds that value to two decimals. -/
theorem c2_final_likelihood (m : Measures) :
    aiRaw m = clamp01 (max (aiScore m + 0.05) (weightedAI m)) ∧
    weightedAI m = susRounded m * 0.25 + priVal m * 0.2 + crsVal m * 0.2 +
      iasProxy m * 0.15 + max 0 (entropyProxy m) * 0.2 ∧
    (detectAIPatterns m).aiLikelihood = round2 (aiRaw m) := by
  refine ⟨?_, rfl, rfl⟩
  unfold aiRaw clamp01
  have h : (0 : ℚ) ≤ max (aiScore m + 0.05) (weightedAI m) := by
    have := aiScore_nonneg m
    calc (0 : ℚ) ≤ aiScore m + 0.05 := by linarith
      _ ≤ _ := le_max_left _ _
  rw [max_eq_left h]

/-- Counterexample for C3: at likelihood exactly `0.4` the code takes the
lower piece — `aiDebtContribution` is `round(8 + 35·0.4) = 22`, not the
`round(45 + 55·0.4) = 67` the claim requires. -/
theorem c3_counterexample :
    aiDebtContributionOf (2/5) = 22 ∧
    aiDebtContributionOf (2/5) ≠ jsRound (45 + (2/5) * 55) := by
  constructor <;> norm_num [aiDebtContributionOf, jsRound]

/-- C3 (amended): `aiDebtContribution` is `round(8 + 35·a)` for
likelihood `a` at or below `0.4` and `round(45 + 55·a)` strictly above
`0.4`; at exactly `0.4` the lower piece applies. The result lies in
`[0,100]`. -/
theorem c3_contribution_piecewise (a : ℚ) (h0 : 0 ≤ a) (h1 : a ≤ 1) :
    (a ≤ 2/5 → aiDebtContributionOf a = jsRound (8 + a * 35)) ∧
    (2/5 < a → aiDebtContributionOf a = jsRound (45 + a * 55)) ∧
    0 ≤ aiDebtContributionOf a ∧ aiDebtContributionOf a ≤ 100 := by
  refine ⟨?_, ?_, aiDebtContribution_bounds h0 h1⟩
  · intro h
    unfold aiDebtContributionOf
    split_ifs with hc
    · exfalso; norm_num at hc; linarith
    · rfl
  · intro h
    unfold aiDebtContributionOf
    split_ifs with hc
    · rfl
    · exfalso; norm_num at hc; linarith

/-- Witness for C3 (amended) at likelihood `0.2`. -/
theorem c3_witness :
    (0 : ℚ) ≤ 1/5 ∧ (1/5 : ℚ) ≤ 1 ∧
    ((1/5 : ℚ) ≤ 2/5 → aiDebtContributionOf (1/5) = jsRound (8 + (1/5) * 35)) :=
  ⟨by norm_num, by norm_num,
    (c3_contribution_piecewise (1/5) (by norm_num) (by norm_num)).1⟩

/-- C9: the three estimators are deterministic — two renders with
different random samples produce identical core analyses — while the
UI duplication bar (the only consumer of `Math.random()`) does depend on
the sample. -/
theorem c9_core_deterministic (path : String) (m : Measures) (r₁ r₂ : ℚ) :
    (displayRun path m r₁).1 = (displayRun path m r₂).1 ∧
    (∃ (fa : FileAnalysisRec) (s₁ s₂ : ℚ),
      duplicationDisplay fa s₁ ≠ duplicationDisplay fa s₂) := by
  refine ⟨rfl, ⟨{ analyzeFile "x" sampleMeasures with
    issues := ["duplicate code blocks"] }, 0, 1, ?_⟩⟩
  have hc : ((["duplicate code blocks"] : List String).contains
      "duplicate code blocks" ||
      (["duplicate code blocks"] : List String).contains "duplicate code")
      = true := by decide
  unfold duplicationDisplay
  rw [if_pos hc, if_pos hc]
  norm_num

theorem runCommitsAux_length (cs : List CommitInfo) :
    ∀ s, (runCommitsAux s cs).length = cs.length := by
  induction cs with
  | nil => intro s; rfl
  | cons c t ih => intro s; simp [runCommitsAux, ih]

/-- C4: on a successful detail fetch the accumulator obeys
`runningTech' = clamp(runningTech·growthFactor + techDelta, 0, 1)` (and
analogously for the cognitive score), `runningAi' = clamp(runningAi +
aiDelta·0.5, 0, 1)`, where `growthFactor` is the asymmetric function of
`netGrowth = (additions − deletions)/(additions + deletions)`; the seed
state is `(0.1, 0.1, 0.05)`. -/
theorem c4_accumulator_recurrence (s : RunState) (c : CommitInfo)
    (d : CommitDetail) (hd : c.detail = some d)
    (hpos : 0 < d.additions + d.deletions) :
    netGrowthOf d = ((d.additions : ℚ) - (d.deletions : ℚ)) /
      ((d.additions : ℚ) + (d.deletions : ℚ)) ∧
    growthFactorOf d = (if 0 < netGrowthOf d then 1 + netGrowthOf d * 0.3
      else 1 + netGrowthOf d * 0.1) ∧
    (stepCommit s c).1.tech =
      clamp01 (s.tech * growthFactorOf d + commitTechDelta d) ∧
    (stepCommit s c).1.cog =
      clamp01 (s.cog * growthFactorOf d + commitCogDelta d) ∧
    (stepCommit s c).1.ai = clamp01 (s.ai + commitAiDelta d * 0.5) ∧
    seedState = { tech := 0.1, cog := 0.1, ai := 0.05 } := by
  have h1 : (1 : ℚ) ≤ (d.additions : ℚ) + (d.deletions : ℚ) := by
    have h2 : 1 ≤ d.additions + d.deletions := hpos
    exact_mod_cast h2
  refine ⟨?_, rfl, ?_, ?_, ?_, rfl⟩
  · unfold netGrowthOf
    rw [max_eq_left h1]
  · simp only [stepCommit, hd]
  · simp only [stepCommit, hd]
  · simp only [stepCommit, hd]

/-- Witness for C4: the recurrence instantiated at the seed state and a
commit with three additions and one deletion. -/
theorem c4_witness :
    sampleCommitOk.detail = some sampleDetail ∧
    0 < sampleDetail.additions + sampleDetail.deletions ∧
    (stepCommit seedState sampleCommitOk).1.ai =
      clamp01 (seedState.ai + commitAiDelta sampleDetail * 0.5) :=
  ⟨rfl, by decide,
    (c4_accumulator_recurrence seedState sampleCommitOk sampleDetail rfl
      (by decide)).2.2.2.2.1⟩

/-- C8: a commit whose detail fetch fails still emits a record carrying
the unchanged running state (rounded) with zero file/line counters, the
state is not advanced, and the loop continues over the remaining
commits; every commit yields exactly one record. -/
theorem c8_failed_fetch_graceful (s : RunState) (c : CommitInfo)
    (h : c.detail = none) :
    (stepCommit s c).1 = s ∧
    (stepCommit s c).2.techDebt = round2 s.tech ∧
    (stepCommit s c).2.cogDebt = round2 s.cog ∧
    (stepCommit s c).2.aiContribution = round2 s.ai ∧
    (stepCommit s c).2.filesChanged = 0 ∧
    (stepCommit s c).2.additions = 0 ∧
    (stepCommit s c).2.deletions = 0 ∧
    (stepCommit s c).2.isSpike = false ∧
    (∀ cs, runCommitsAux s (c :: cs) =
      (stepCommit s c).2 :: runCommitsAux s cs) ∧
    (∀ cs, (runCommitsAux s cs).length = cs.length) := by
  have hstep : stepCommit s c = (s, mkCommitRec c s 0 0 0) := by
    simp only [stepCommit, h]
  refine ⟨?_, ?_, ?_, ?_, ?_, ?_, ?_, ?_, ?_, fun cs => runCommitsAux_length cs s⟩
  · rw [hstep]
  · rw [hstep]; rfl
  · rw [hstep]; rfl
  · rw [hstep]; rfl
  · rw [hstep]; rfl
  · rw [hstep]; rfl
  · rw [hstep]; rfl
  · rw [hstep]; rfl
  · intro cs
    simp only [runCommitsAux, hstep]

/-- Witness for C8: the seed state survives a failed fetch unchanged. -/
theorem c8_witness :
    sampleCommitFail.detail = none ∧
    (stepCommit seedState sampleCommitFail).1 = seedState :=
  ⟨rfl, (c8_failed_fetch_graceful seedState sampleCommitFail rfl).1⟩

/-- C10: with zero commits the history analysis produces an empty
timeline internally, but the trend computation dereferences missing
first/last records, so the operation ends in the error branch rather
than returning a result with zero records. -/
theorem c10_empty_history_errors :
    timeline [] = [] ∧
    analyzeHistory [] =
      Except.error "TypeError: cannot read techDebt of undefined" :=
  ⟨rfl, rfl⟩

/-! ## Spike-marking lemmas -/

theorem stepCommit_isSpike (s : RunState) (c : CommitInfo) :
    ((stepCommit s c).2).isSpike = false := by
  cases h : c.detail <;> simp [stepCommit, h, mkCommitRec]

theorem runCommitsAux_isSpike (cs : List CommitInfo) :
    ∀ (s : RunState), ∀ r ∈ runCommitsAux s cs, r.isSpike = false := by
  induction cs with
  | nil => intro s r hr; simp [runCommitsAux] at hr
  | cons c t ih =>
    intro s r hr
    simp only [runCommitsAux, List.mem_cons] at hr
    rcases hr with h1 | h2
    · rw [h1]; exact stepCommit_isSpike s c
    · exact ih _ r h2

theorem markSpikesAux_length (l : List CommitRec) :
    ∀ p, (markSpikesAux p l).length = l.length := by
  induction l with
  | nil => intro p; rfl
  | cons r t ih => intro p; simp [markSpikesAux, ih]

theorem markSpikes_length (l : List CommitRec) :
    (markSpikes l).length = l.length := by
  cases l with
  | nil => rfl
  | cons r t => simp [markSpikes, markSpikesAux_length]

theorem markStep_techDebt (p r : CommitRec) :
    (markStep p r).techDebt = r.techDebt := by
  unfold markStep; split_ifs <;> rfl

theorem markStep_cogDebt (p r : CommitRec) :
    (markStep p r).cogDebt = r.cogDebt := by
  unfold markStep; split_ifs <;> rfl

theorem markStep_isSpike_iff (p r : CommitRec) (h : r.isSpike = false) :
    ((markStep p r).isSpike = true ↔
      (0.08 < r.techDebt - p.techDebt ∨ 0.08 < r.cogDebt - p.cogDebt)) := by
  unfold markStep
  split_ifs with hc
  · simp [hc]
  · simp [h, hc]

theorem getD_cons (r : CommitRec) (t : List CommitRec) (j : ℕ) :
    (r :: t).getD j defaultRec =
      if j = 0 then r else t.getD (j - 1) defaultRec := by
  cases j <;> simp

theorem markSpikesAux_getD (l : List CommitRec) :
    ∀ (p : CommitRec) (i : ℕ), i < l.length →
      (markSpikesAux p l).getD i defaultRec =
        markStep (if i = 0 then p else l.getD (i - 1) defaultRec)
          (l.getD i defaultRec) := by
  induction l with
  | nil => intro p i h; simp at h
  | cons r t ih =>
    intro p i h
    cases i with
    | zero => simp [markSpikesAux]
    | succ j =>
      have hj : j < t.length := by simpa using h
      calc (markSpikesAux p (r :: t)).getD (j + 1) defaultRec
          = (markSpikesAux r t).getD j defaultRec := by simp [markSpikesAux]
        _ = markStep (if j = 0 then r else t.getD (j - 1) defaultRec)
              (t.getD j defaultRec) := ih r j hj
        _ = markStep ((r :: t).getD j defaultRec) (t.getD j defaultRec) := by
              rw [getD_cons]
        _ = markStep (if j + 1 = 0 then p
              else (r :: t).getD (j + 1 - 1) defaultRec)
              ((r :: t).getD (j + 1) defaultRec) := by simp

theorem markSpikes_getD (l : List CommitRec) (i : ℕ) (h : i < l.length) :
    (markSpikes l).getD i defaultRec =
      if i = 0 then l.getD 0 defaultRec
      else markStep (l.getD (i - 1) defaultRec) (l.getD i defaultRec) := by
  cases l with
  | nil => simp at h
  | cons r t =>
    cases i with
    | zero => simp [markSpikes]
    | succ j =>
      have hj : j < t.length := by simpa using h
      simp only [markSpikes, List.getD_cons_succ, markSpikesAux_getD t r j hj]
      rw [getD_cons, getD_cons]
      simp

theorem runCommits_getD_isSpike (cs : List CommitInfo) (i : ℕ)
    (h : i < (runCommits cs).length) :
    ((runCommits cs).getD i defaultRec).isSpike = false := by
  have hmem : (runCommits cs).getD i defaultRec ∈ runCommits cs := by
    rw [List.getD_eq_getElem (runCommits cs) defaultRec h]
    exact List.getElem_mem h
  exact runCommitsAux_isSpike cs seedState _ hmem

theorem timeline_length (cs : List CommitInfo) :
    (timeline cs).length = cs.length := by
  unfold timeline runCommits
  rw [markSpikes_length, runCommitsAux_length]

theorem timeline_getD_techDebt (cs : List CommitInfo) (i : ℕ)
    (h : i < (runCommits cs).length) :
    ((timeline cs).getD i defaultRec).techDebt =
      ((runCommits cs).getD i defaultRec).techDebt := by
  unfold timeline
  rw [markSpikes_getD (runCommits cs) i h]
  split_ifs with h0
  · rw [h0]
  · rw [markStep_techDebt]

theorem timeline_getD_cogDebt (cs : List CommitInfo) (i : ℕ)
    (h : i < (runCommits cs).length) :
    ((timeline cs).getD i defaultRec).cogDebt =
      ((runCommits cs).getD i defaultRec).cogDebt := by
  unfold timeline
  rw [markSpikes_getD (runCommits cs) i h]
  split_ifs with h0
  · rw [h0]
  · rw [markStep_cogDebt]

/-- C5: in the emitted record sequence, record `i ≥ 1` is a spike exactly
when its technical- or cognitive-debt delta over record `i−1` strictly
exceeds 0.08, and record 0 is never a spike (a delta of exactly 0.08
does not trigger the flag). -/
theorem c5_spike_iff (cs : List CommitInfo) (i : ℕ)
    (h : i < (timeline cs).length) :
    ((timeline cs).getD i defaultRec).isSpike = true ↔
      1 ≤ i ∧
        (0.08 < ((timeline cs).getD i defaultRec).techDebt -
            ((timeline cs).getD (i - 1) defaultRec).techDebt ∨
          0.08 < ((timeline cs).getD i defaultRec).cogDebt -
            ((timeline cs).getD (i - 1) defaultRec).cogDebt) := by
  have hr : i < (runCommits cs).length := by
    have := timeline_length cs
    have := runCommitsAux_length cs seedState
    unfold runCommits
    omega
  have hr1 : i - 1 < (runCommits cs).length := by omega
  rw [timeline_getD_techDebt cs i hr, timeline_getD_cogDebt cs i hr,
    timeline_getD_techDebt cs (i - 1) hr1, timeline_getD_cogDebt cs (i - 1) hr1]
  unfold timeline
  rw [markSpikes_getD (runCommits cs) i hr]
  cases i with
  | zero =>
    rw [if_pos rfl, runCommits_getD_isSpike cs 0 hr]
    simp
  | succ j =>
    rw [if_neg (Nat.succ_ne_zero j), Nat.add_sub_cancel,
      markStep_isSpike_iff _ _ (runCommits_getD_isSpike cs (j + 1) hr)]
    have hj1 : 1 ≤ j + 1 := by omega
    simp [hj1]

/-- Witness for C5 at index 1 of a concrete two-commit history. -/
theorem c5_witness :
    1 < (timeline sampleCommits).length ∧
    (((timeline sampleCommits).getD 1 defaultRec).isSpike = true ↔
      1 ≤ 1 ∧
        (0.08 < ((timeline sampleCommits).getD 1 defaultRec).techDebt -
            ((timeline sampleCommits).getD 0 defaultRec).techDebt ∨
          0.08 < ((timeline sampleCommits).getD 1 defaultRec).cogDebt -
            ((timeline sampleCommits).getD 0 defaultRec).cogDebt)) := by
  have hl : (timeline sampleCommits).length = 2 := timeline_length sampleCommits
  refine ⟨by omega, ?_⟩
  exact c5_spike_iff sampleCommits 1 (by omega)

/-! ## Propagation-graph lemmas -/

theorem importEdges_mem (files : List GraphFile) (e : PropEdge)
    (he : e ∈ importEdges files) :
    e.kind = EdgeKind.imported ∧
      ∃ f ∈ files, e.weight = round2 ((f.technicalDebt + f.aiLikelihood) / 2) := by
  unfold importEdges at he
  rw [List.mem_flatMap] at he
  obtain ⟨f, hf, he2⟩ := he
  rw [List.mem_filterMap] at he2
  obtain ⟨ref, _, hsome⟩ := he2
  cases hfind : (files.map GraphFile.file).find?
      (fun p => jsIncludesStr p (resolveNeedle ref)) with
  | none => rw [hfind] at hsome; simp at hsome
  | some resolved =>
    rw [hfind] at hsome
    dsimp only at hsome
    by_cases hres : resolved ≠ f.file
    · rw [if_pos hres] at hsome
      injection hsome with hsome
      subst hsome
      exact ⟨rfl, ⟨f, hf, rfl⟩⟩
    · rw [if_neg hres] at hsome; simp at hsome

theorem patternEdges_mem (files : List GraphFile) (e : PropEdge)
    (he : e ∈ patternEdges files) :
    e.kind = EdgeKind.pattern ∧
      ∃ k : ℕ, 2 ≤ k ∧ e.weight = round2 ((k : ℚ) / 5) := by
  induction files with
  | nil => simp [patternEdges] at he
  | cons f rest ih =>
    rw [patternEdges, List.mem_append] at he
    rcases he with h1 | h2
    · rw [List.mem_filterMap] at h1
      obtain ⟨g, hg, hsome⟩ := h1
      by_cases hc : 2 ≤ (sharedIssues f g).length
      · rw [if_pos hc] at hsome
        injection hsome with hsome
        subst hsome
        exact ⟨rfl, ⟨(sharedIssues f g).length, hc, rfl⟩⟩
      · rw [if_neg hc] at hsome; simp at hsome
    · exact ih h2

/-- Counterexample for C6: two files sharing six issue tags produce a
pattern edge of weight `6/5 > 1`, so not every emitted edge weight lies
in `[0,1]`. -/
theorem c6_counterexample :
    ∃ e ∈ buildPropagationGraph [cxFileA, cxFileB], 1 < e.weight := by
  simp [buildPropagationGraph, importEdges, patternEdges, sharedIssues,
    cxFileA, cxFileB]
  norm_num [round2, jsRound]

/-- C6 (amended): every emitted edge has non-negative weight; import
edges have weight in `[0,1]` whenever the per-file scores are in
`[0,1]`; a pattern edge's weight is `round2(k/5)` for the shared tag
count `k ≥ 2`, which is bounded by 1 only when `k ≤ 5` — pairs sharing
six or more tags exceed the documented range. -/
theorem c6_edge_weights (files : List GraphFile)
    (h : ∀ f ∈ files, inUnit f.technicalDebt ∧ inUnit f.aiLikelihood) :
    ∀ e ∈ buildPropagationGraph files,
      0 ≤ e.weight ∧
      (e.kind = EdgeKind.imported → e.weight ≤ 1) ∧
      (e.kind = EdgeKind.pattern → ∃ k : ℕ, 2 ≤ k ∧
        e.weight = round2 ((k : ℚ) / 5) ∧ (k ≤ 5 → e.weight ≤ 1)) := by
  intro e he
  have he2 : e ∈ importEdges files ++ patternEdges files :=
    List.mem_of_mem_take he
  rcases List.mem_append.mp he2 with h1 | h2
  · obtain ⟨hk, f, hf, hw⟩ := importEdges_mem files e h1
    obtain ⟨⟨ht0, ht1⟩, ⟨ha0, ha1⟩⟩ := h f hf
    have hw1 : inUnit e.weight := by
      rw [hw]; exact inUnit_round2 (by linarith) (by linarith)
    refine ⟨hw1.1, fun _ => hw1.2, fun hp => ?_⟩
    rw [hk] at hp
    exact EdgeKind.noConfusion hp
  · obtain ⟨hk, k, hk2, hw⟩ := patternEdges_mem files e h2
    refine ⟨?_, fun hi => ?_, fun _ => ⟨k, hk2, hw, fun hk5 => ?_⟩⟩
    · rw [hw]; exact round2_nonneg (by positivity)
    · rw [hk] at hi; exact EdgeKind.noConfusion hi
    · rw [hw]
      refine round2_le_one ?_
      rw [div_le_one (by norm_num)]
      exact_mod_cast hk5

/-- Witness for C6 (amended) on the two six-tag files. -/
theorem c6_witness :
    (∀ f ∈ [cxFileA, cxFileB], inUnit f.technicalDebt ∧ inUnit f.aiLikelihood) ∧
    (∀ e ∈ buildPropagationGraph [cxFileA, cxFileB],
      0 ≤ e.weight ∧
      (e.kind = EdgeKind.imported → e.weight ≤ 1) ∧
      (e.kind = EdgeKind.pattern → ∃ k : ℕ, 2 ≤ k ∧
        e.weight = round2 ((k : ℚ) / 5) ∧ (k ≤ 5 → e.weight ≤ 1))) := by
  have hh : ∀ f ∈ [cxFileA, cxFileB],
      inUnit f.technicalDebt ∧ inUnit f.aiLikelihood := by
    intro f hf
    fin_cases hf <;> exact ⟨⟨by norm_num [cxFileA, cxFileB], by norm_num [cxFileA, cxFileB]⟩,
      ⟨by norm_num [cxFileA, cxFileB], by norm_num [cxFileA, cxFileB]⟩⟩
  exact ⟨hh, c6_edge_weights [cxFileA, cxFileB] hh⟩

/-- C7: the builder returns the candidate list — import edges first, then
pattern edges, in insertion order — hard-truncated to 35 entries, so
with more than 35 candidates exactly 35 edges are returned and
import-kind edges are preferred over pattern-kind ones. -/
theorem c7_edge_cap (files : List GraphFile)
    (h : 35 < (importEdges files ++ patternEdges files).length) :
    buildPropagationGraph files =
      (importEdges files ++ patternEdges files).take 35 ∧
    (buildPropagationGraph files).length = 35 ∧
    (∀ e ∈ importEdges files, e.kind = EdgeKind.imported) ∧
    (∀ e ∈ patternEdges files, e.kind = EdgeKind.pattern) := by
  refine ⟨rfl, ?_, fun e he => (importEdges_mem files e he).1,
    fun e he => (patternEdges_mem files e he).1⟩
  rw [buildPropagationGraph, List.length_take]
  omega

/-- Witness for C7: nine files pairwise sharing two tags yield 36
candidates and exactly 35 returned edges. -/
theorem c7_witness :
    35 < (importEdges capFiles ++ patternEdges capFiles).length ∧
    (buildPropagationGraph capFiles).length = 35 :=
  ⟨by decide, (c7_edge_cap capFiles (by decide)).2.1⟩

end AIDebt
